import Mathlib

/-!
Shallow embedding of `applications/serial_lte_modem/src/mqtt_c/slm_at_mqtt.c`
(SLM MQTT client session layer) and proofs about its claims.

Modelling conventions:
- C byte buffers handed around as (pointer, length) pairs are modelled as
  `List Nat` (the bytes at the pointer for that length).
- `uint16_t` counters are `Nat` with explicit `% 65536` where the C relies
  on unsigned wraparound.
- Fallible external engine calls (`mqtt_connect`, `mqtt_disconnect`,
  `mqtt_publish`, `mqtt_subscribe`, `mqtt_unsubscribe`,
  `mqtt_readall_publish_payload`, `mqtt_publish_qos2_release`,
  `mqtt_publish_qos2_complete`, `getaddrinfo`, `k_thread_join`,
  `enter_datamode`) are oracles: their integer results are inputs, and the
  fact that a call was issued is recorded in an action trace.
- Emissions on the response channel (`rsp_send`) are recorded in an
  emission trace.
- Errno constants carry the Zephyr/newlib numeric values; only their
  distinctness matters to the source logic.
-/

/-- errno EINVAL. -/
def EINVAL : Int := 22

/-- errno EMSGSIZE (newlib/Zephyr value). -/
def EMSGSIZE : Int := 122

/-- errno EISCONN (newlib/Zephyr value). -/
def EISCONN : Int := 127

/-- errno ENOTCONN (newlib/Zephyr value). -/
def ENOTCONN : Int := 128

/-- `MQTT_MESSAGE_BUFFER_LEN = NET_IPV4_MTU` (576 in Zephyr): size of
`rx_buffer`, `tx_buffer`, `payload_buf` and `pub_msg`. -/
def MQTT_MESSAGE_BUFFER_LEN : Nat := 576

/-- `UINT16_MAX`. -/
def UINT16_MAX : Nat := 65535

/-- `INVALID_SEC_TAG` from the SLM headers (value immaterial here). -/
def INVALID_SEC_TAG : Int := -1

/-- `AF_INET` (Zephyr value 1). -/
def AF_INET : Nat := 1

/-- `AF_INET6` (Zephyr value 2). -/
def AF_INET6 : Nat := 2

/-- The `enum mqtt_evt_type` dispatched on by `mqtt_evt_handler`.
`other c` stands for the remaining enum values (`MQTT_EVT_UNSUBACK`,
`MQTT_EVT_PINGRESP`), which the C handler sends to its `default` branch. -/
inductive EvtType
  | connack
  | disconnectEvt
  | publish
  | puback
  | pubrec
  | pubrel
  | pubcomp
  | suback
  | other (code : Int)
deriving DecidableEq

/-- Numeric value of the event type as printed in the `#XMQTTEVT` line. -/
def typeCode : EvtType → Int
  | .connack => 0
  | .disconnectEvt => 1
  | .publish => 2
  | .puback => 3
  | .pubrec => 4
  | .pubrel => 5
  | .pubcomp => 6
  | .suback => 7
  | .other c => c

/-- An inbound `struct mqtt_evt`.  The C parameter is a union over the
event kinds; all acknowledgement kinds carry a single `uint16_t
message_id` at the same offset (so the PUBREC branch reading
`param.pubrel.message_id` reads the same storage), and the publish kind
carries topic and payload.  We fold the union into one record. -/
structure MqttEvt where
  type : EvtType
  result : Int
  messageId : Nat
  pubTopic : List Nat
  pubPayload : List Nat
deriving DecidableEq

/-- Engine calls issued from the event dispatcher. -/
inductive ECall
  | qos2Release (messageId : Nat)
  | qos2Complete (messageId : Nat)
deriving DecidableEq

/-- One `rsp_send` emission on the response channel. -/
inductive Rsp
  | xmqttmsg (topicLen payloadLen : Nat)
  | raw (bytes : List Nat)
  | xmqttevt (evtType : Int) (result : Int)
deriving DecidableEq

/-- Results of the external engine calls the dispatcher can make. -/
structure DispatchOracle where
  readallRes : Int
  releaseRes : Int
  completeRes : Int
deriving DecidableEq

/-- The `"\r\n"` framing bytes. -/
def crlf : List Nat := [13, 10]

/-- `publish_get_payload`: reject a payload longer than `payload_buf`,
otherwise return the result of `mqtt_readall_publish_payload`. -/
def publish_get_payload (length : Nat) (orc : DispatchOracle) : Int :=
  if length > MQTT_MESSAGE_BUFFER_LEN then -EMSGSIZE else orc.readallRes

/-- `handle_mqtt_publish_evt`: read the payload; on failure return the
error with nothing emitted; on success emit the `#XMQTTMSG` header line,
the topic bytes, CRLF, the payload bytes, CRLF, and return 0.
On success `mqtt_readall_publish_payload` has filled `payload_buf` with
exactly the event's `payload.len` bytes, so the `rsp_send(payload_buf,
len)` emission is the event's payload. -/
def handle_mqtt_publish_evt (evt : MqttEvt) (orc : DispatchOracle) :
    Int × List Rsp :=
  let ret := publish_get_payload evt.pubPayload.length orc
  if ret < 0 then
    (ret, [])
  else
    (0, [Rsp.xmqttmsg evt.pubTopic.length evt.pubPayload.length,
         Rsp.raw evt.pubTopic, Rsp.raw crlf,
         Rsp.raw evt.pubPayload, Rsp.raw crlf])

/-- `mqtt_evt_handler`: the event dispatcher.  Takes the current
`ctx.connected` flag (the only context field it touches) and returns the
new flag, the engine calls issued, and the response-channel emissions.
`ret` starts as `evt->result` and is overwritten by the PUBLISH branch
(payload handling result) and by the PUBREC/PUBREL branches (result of
the QoS2 continuation call); the final `#XMQTTEVT: type,ret` line is
emitted after the switch in every case. -/
def mqtt_evt_handler (connected : Bool) (evt : MqttEvt)
    (orc : DispatchOracle) : Bool × List ECall × List Rsp :=
  match evt.type with
  | .connack =>
      let c := if evt.result ≠ 0 then false else connected
      (c, [], [Rsp.xmqttevt (typeCode evt.type) evt.result])
  | .disconnectEvt =>
      (false, [], [Rsp.xmqttevt (typeCode evt.type) evt.result])
  | .publish =>
      let r := handle_mqtt_publish_evt evt orc
      (connected, [], r.2 ++ [Rsp.xmqttevt (typeCode evt.type) r.1])
  | .puback =>
      (connected, [], [Rsp.xmqttevt (typeCode evt.type) evt.result])
  | .pubrec =>
      if evt.result ≠ 0 then
        (connected, [], [Rsp.xmqttevt (typeCode evt.type) evt.result])
      else
        (connected, [ECall.qos2Release evt.messageId],
         [Rsp.xmqttevt (typeCode evt.type) orc.releaseRes])
  | .pubrel =>
      if evt.result ≠ 0 then
        (connected, [], [Rsp.xmqttevt (typeCode evt.type) evt.result])
      else
        (connected, [ECall.qos2Complete evt.messageId],
         [Rsp.xmqttevt (typeCode evt.type) orc.completeRes])
  | .pubcomp =>
      (connected, [], [Rsp.xmqttevt (typeCode evt.type) evt.result])
  | .suback =>
      (connected, [], [Rsp.xmqttevt (typeCode evt.type) evt.result])
  | .other _ =>
      (connected, [], [Rsp.xmqttevt (typeCode evt.type) evt.result])

/-- The persistent `pub_param` (`struct mqtt_publish_param`): staged
publish parameters, including the 16-bit publish message-id counter. -/
structure PubParam where
  qos : Nat
  retain : Nat
  dup : Nat
  topic : List Nat
  payload : List Nat
  messageId : Nat
deriving DecidableEq

/-- `struct slm_mqtt_ctx ctx`: the session context.  The broker union is
modelled as an optional (resolved address, port) pair; `username` and
`password` model the `mqtt_utf8` views set by the connect handler. -/
structure Ctx where
  family : Nat
  connected : Bool
  username : List Nat
  password : List Nat
  secTag : Int
  broker : Option (Nat × Nat)
deriving DecidableEq

/-- The module-level mutable state of `slm_at_mqtt.c`: the context, the
`client.broker` reference (`none` = `NULL`), the identity/staging
buffers, the pending-publish parameters, the static subscribe message-id
counter, and whether the Session Driver thread has been spawned. -/
structure St where
  ctx : Ctx
  clientBroker : Option (Nat × Nat)
  clientId : List Nat
  usernameBuf : List Nat
  passwordBuf : List Nat
  brokerUrl : List Nat
  brokerPort : Nat
  pubTopic : List Nat
  pubMsg : List Nat
  pubParam : PubParam
  subMessageId : Nat
  threadRunning : Bool
deriving DecidableEq

/-- Lifecycle/tracker actions recorded in the trace.  `getaddrinfoCall`,
`mqttConnectCall` etc. mark that the corresponding external call was
issued. -/
inductive Act
  | getaddrinfoCall
  | mqttConnectCall
  | spawnThread
  | sendDisconnect
  | joinThread
  | publishCall (payload : List Nat)
  | subscribeCall (topic : List Nat) (qos : Nat) (messageId : Nat)
  | unsubscribeCall (topic : List Nat) (messageId : Nat)
  | enterDatamodeCall
deriving DecidableEq

/-- Results of the external calls the lifecycle/tracker operations make.
`resolveRes` is `getaddrinfo`: either a nonzero error code or the
resolved address. -/
structure EngOracle where
  resolveRes : Except Int Nat
  mqttConnectRes : Int
  mqttDisconnectRes : Int
  mqttPublishRes : Int
  mqttSubscribeRes : Int
  mqttUnsubscribeRes : Int
  threadJoinRes : Int
  enterDatamodeRes : Int

/-- `broker_init`: resolve `mqtt_broker_url` and store the address with
`mqtt_broker_port` into the context's broker union; on resolver failure
return its error code with the state unchanged. -/
def broker_init (st : St) (orc : EngOracle) : Int × St :=
  match orc.resolveRes with
  | .error e => (e, st)
  | .ok addr =>
      (0, { st with ctx := { st.ctx with broker := some (addr, st.brokerPort) } })

/-- `client_init`: point `client.broker` at the context's broker storage
(the other `client` fields — buffers, protocol version, TLS config — are
outside the modelled state). -/
def client_init (st : St) : St :=
  { st with clientBroker := st.ctx.broker }

/-- `do_mqtt_connect`: refuse when already connected; resolve the broker;
initialise the client; run the engine handshake; on success spawn the
Session Driver thread and set the connected flag. -/
def do_mqtt_connect (st : St) (orc : EngOracle) : Int × St × List Act :=
  if st.ctx.connected then
    (-EISCONN, st, [])
  else
    let r := broker_init st orc
    if r.1 ≠ 0 then
      (r.1, r.2, [Act.getaddrinfoCall])
    else
      let st2 := client_init r.2
      if orc.mqttConnectRes ≠ 0 then
        (orc.mqttConnectRes, st2, [Act.getaddrinfoCall, Act.mqttConnectCall])
      else
        (0, { st2 with ctx := { st2.ctx with connected := true },
                       threadRunning := true },
         [Act.getaddrinfoCall, Act.mqttConnectCall, Act.spawnThread])

/-- `slm_at_mqtt_uninit`: clear the `client.broker` reference, nothing
else. -/
def slm_at_mqtt_uninit (st : St) : St :=
  { st with clientBroker := none }

/-- `do_mqtt_disconnect`: refuse when not connected; send the protocol
disconnect and, if that fails, log and return its error immediately
(no join, no uninit); otherwise join the driver thread bounded by the
keepalive interval (a timeout only warns) and release the broker
reference. -/
def do_mqtt_disconnect (st : St) (orc : EngOracle) : Int × St × List Act :=
  if !st.ctx.connected then
    (-ENOTCONN, st, [])
  else if orc.mqttDisconnectRes ≠ 0 then
    (orc.mqttDisconnectRes, st, [Act.sendDisconnect])
  else
    let st1 := if orc.threadJoinRes = 0 then { st with threadRunning := false } else st
    (0, slm_at_mqtt_uninit st1, [Act.sendDisconnect, Act.joinThread])

/-- `do_mqtt_publish`: stage the payload into `pub_param` and submit one
engine publish call, returning its result verbatim.  No connected-state
check. -/
def do_mqtt_publish (st : St) (orc : EngOracle) (msg : List Nat) :
    Int × St × List Act :=
  let st1 := { st with pubParam := { st.pubParam with payload := msg } }
  (orc.mqttPublishRes, st1, [Act.publishCall msg])

/-- Advance a 16-bit message-id counter the way both allocation sites do:
`id++` (mod 2^16) followed by `if (id == UINT16_MAX) id = 1`. -/
def nextMsgId (id : Nat) : Nat :=
  let i := (id + 1) % 65536
  if i = UINT16_MAX then 1 else i

/-- `do_mqtt_subscribe`: advance the static subscribe message-id counter
first; then validate `qos ≤ 2` (returning `-EINVAL` otherwise — note the
counter has already advanced); then issue exactly one subscribe
(`op = 1`) or unsubscribe (`op = 0`) engine call and return its result
verbatim; any other `op` returns `-EINVAL`.  No connected-state check. -/
def do_mqtt_subscribe (st : St) (orc : EngOracle) (op : Nat)
    (topic : List Nat) (qos : Nat) : Int × St × List Act :=
  let id := nextMsgId st.subMessageId
  let st1 := { st with subMessageId := id }
  if qos ≤ 2 then
    if op = 1 then
      (orc.mqttSubscribeRes, st1, [Act.subscribeCall topic qos id])
    else if op = 0 then
      (orc.mqttUnsubscribeRes, st1, [Act.unsubscribeCall topic id])
    else
      (-EINVAL, st1, [])
  else
    (-EINVAL, st1, [])

/-- The parsed parameters of an `AT#XMQTTCON` set command: op 0 =
disconnect, 1 = connect (IPv4), 2 = connect (IPv6); `secTag = none` when
fewer than 8 parameters were supplied. -/
structure ConnectCmd where
  op : Nat
  clientId : List Nat
  username : List Nat
  password : List Nat
  url : List Nat
  port : Nat
  secTag : Option Int
deriving DecidableEq

/-- `handle_at_mqtt_connect`, set-command path, with the AT parameters
already extracted (the `util_string_get` / `at_params_*` extraction is
modelled as the parsed `ConnectCmd`; its failure paths are out of scope).
For a connect op the handler copies client id, username (also into
`ctx.username`), password (also into `ctx.password`), URL, port, security
tag and address family into the module state BEFORE calling
`do_mqtt_connect`; op 0 calls `do_mqtt_disconnect`; any other op is
`-EINVAL`. -/
def handle_at_mqtt_connect (st : St) (orc : EngOracle) (cmd : ConnectCmd) :
    Int × St × List Act :=
  if cmd.op = 1 ∨ cmd.op = 2 then
    let st1 :=
      { st with
        clientId := cmd.clientId,
        usernameBuf := cmd.username,
        passwordBuf := cmd.password,
        brokerUrl := cmd.url,
        brokerPort := cmd.port,
        ctx := { st.ctx with
                 username := cmd.username,
                 password := cmd.password,
                 secTag := cmd.secTag.getD INVALID_SEC_TAG,
                 family := if cmd.op = 1 then AF_INET else AF_INET6 } }
    do_mqtt_connect st1 orc
  else if cmd.op = 0 then
    do_mqtt_disconnect st orc
  else
    (-EINVAL, st, [])

/-- `handle_at_mqtt_publish`, set-command path, with the AT parameters
already extracted: `topic` is the topic bytes, `msg` the message bytes
(`[]` when absent or empty, in which case data mode is entered), `qos`
and `retain` the parsed values (defaulting to 0).  The staging buffers
`pub_topic`/`pub_msg` are written during extraction; then `qos` is
validated (writing `pub_param`'s qos field first), then `retain`; an
out-of-range value returns `-EINVAL` with no engine call and no
message-id advance.  With valid values the remaining `pub_param` fields
are staged, the publish message-id counter is advanced, and either data
mode is entered (empty message) or one publish is submitted. -/
def handle_at_mqtt_publish (st : St) (orc : EngOracle) (topic : List Nat)
    (msg : List Nat) (qos retain : Nat) : Int × St × List Act :=
  let st0 := { st with pubTopic := topic, pubMsg := msg }
  if qos ≤ 2 then
    let st1 := { st0 with pubParam := { st0.pubParam with qos := qos } }
    if retain ≤ 1 then
      let st2 :=
        { st1 with pubParam :=
          { st1.pubParam with
            retain := retain,
            topic := topic,
            dup := 0,
            messageId := nextMsgId st1.pubParam.messageId } }
      if msg = [] then
        (orc.enterDatamodeRes, st2, [Act.enterDatamodeCall])
      else
        do_mqtt_publish st2 orc msg
    else
      (-EINVAL, st1, [])
  else
    (-EINVAL, st0, [])

/-- `handle_at_mqtt_subscribe`, set-command path with parameters
extracted: subscribe one topic with the given qos. -/
def handle_at_mqtt_subscribe (st : St) (orc : EngOracle)
    (topic : List Nat) (qos : Nat) : Int × St × List Act :=
  do_mqtt_subscribe st orc 1 topic qos

/-- `handle_at_mqtt_unsubscribe`, set-command path with parameters
extracted: unsubscribe one topic (qos fixed at 0). -/
def handle_at_mqtt_unsubscribe (st : St) (orc : EngOracle)
    (topic : List Nat) : Int × St × List Act :=
  do_mqtt_subscribe st orc 0 topic 0

/-- `slm_at_mqtt_init`: zero the publish message id and the context,
then mark the security tag invalid. -/
def slm_at_mqtt_init (st : St) : St :=
  { st with
    pubParam := { st.pubParam with messageId := 0 },
    ctx := { family := 0, connected := false, username := [],
             password := [], secTag := INVALID_SEC_TAG, broker := none } }

/-- The message-id successor rule as the specification words it: a 16-bit
counter, incremented, "wrapping from 0 back to 1" (0 reserved as
"no id").  Stated only for comparison against the source's `nextMsgId`. -/
def claimedNextMsgId (id : Nat) : Nat :=
  let i := (id + 1) % 65536
  if i = 0 then 1 else i

/-- Does an emission belong to the normalized `#XMQTTEVT` event line? -/
def isXmqttevt : Rsp → Bool
  | .xmqttevt _ _ => true
  | _ => false

/-- A sample pending-publish parameter block (fresh after init). -/
def pubParam0 : PubParam :=
  { qos := 0, retain := 0, dup := 0, topic := [], payload := [], messageId := 0 }

/-- A sample connected session state. -/
def stConn : St :=
  { ctx := { family := 1, connected := true, username := [117],
             password := [112], secTag := -1, broker := some (7, 1883) },
    clientBroker := some (7, 1883),
    clientId := [97],
    usernameBuf := [117],
    passwordBuf := [112],
    brokerUrl := [104],
    brokerPort := 1883,
    pubTopic := [],
    pubMsg := [],
    pubParam := pubParam0,
    subMessageId := 0,
    threadRunning := true }

/-- The same state, disconnected. -/
def stDisc : St :=
  { stConn with ctx := { stConn.ctx with connected := false },
                threadRunning := false }

/-- An oracle in which every external call succeeds. -/
def orcOk : EngOracle :=
  { resolveRes := Except.ok 7, mqttConnectRes := 0, mqttDisconnectRes := 0,
    mqttPublishRes := 0, mqttSubscribeRes := 0, mqttUnsubscribeRes := 0,
    threadJoinRes := 0, enterDatamodeRes := 0 }

/-- An oracle in which `mqtt_disconnect` fails with -1. -/
def orcDiscFail : EngOracle := { orcOk with mqttDisconnectRes := -1 }

/-- An oracle in which `getaddrinfo` fails with error 5. -/
def orcResolveFail : EngOracle := { orcOk with resolveRes := Except.error 5 }

/-- An oracle in which the `mqtt_connect` handshake fails with -1. -/
def orcConnFail : EngOracle := { orcOk with mqttConnectRes := -1 }

/-- C3: in the Event Dispatcher, a PUBREC event with success result
triggers exactly one `mqtt_publish_qos2_release` call carrying the
event's message id, a PUBREL event with success result triggers exactly
one `mqtt_publish_qos2_complete` call with the event's message id, and a
failure result code triggers no handshake call. -/
theorem C3_qos2_sequencing (connected : Bool) (r : Int) (id : Nat)
    (topic payload : List Nat) (orc : DispatchOracle) :
    ((mqtt_evt_handler connected
        ⟨EvtType.pubrec, r, id, topic, payload⟩ orc).2.1
      = if r = 0 then [ECall.qos2Release id] else []) ∧
    ((mqtt_evt_handler connected
        ⟨EvtType.pubrel, r, id, topic, payload⟩ orc).2.1
      = if r = 0 then [ECall.qos2Complete id] else []) := by
  rcases eq_or_ne r 0 with h | h <;> simp [mqtt_evt_handler, h]

/-- C8: for every inbound protocol event, regardless of event type or
outcome, the dispatcher emits exactly one normalized `#XMQTTEVT`
(event type, result) line, and it comes after all branch-specific
emissions. -/
theorem C8_one_event_line (connected : Bool) (evt : MqttEvt)
    (orc : DispatchOracle) :
    ((mqtt_evt_handler connected evt orc).2.2).countP isXmqttevt = 1 ∧
    ∃ pre r, (mqtt_evt_handler connected evt orc).2.2
        = pre ++ [Rsp.xmqttevt (typeCode evt.type) r] ∧
      pre.countP isXmqttevt = 0 := by
  obtain ⟨t, res, id, topic, payload⟩ := evt
  cases t <;>
    simp only [mqtt_evt_handler, handle_mqtt_publish_evt] <;>
    first
      | (constructor
         · simp [isXmqttevt]
         · exact ⟨[], _, rfl, rfl⟩)
      | (split <;>
          first
            | (constructor
               · simp [isXmqttevt]
               · exact ⟨[], _, rfl, rfl⟩)
            | (constructor
               · simp [isXmqttevt, List.countP_append]
               · exact ⟨_, _, rfl, by simp [isXmqttevt]⟩))

/-- C6: a publish-received event with payload length `L ≤
MQTT_MESSAGE_BUFFER_LEN` (and a successful payload read) emits the
`#XMQTTMSG` line reporting the original topic length and `L`, followed by
exactly the topic bytes and exactly the `L` payload bytes (CRLF framed),
then the event line; `L >` buffer yields only the event line carrying
`-EMSGSIZE`, with no topic/payload bytes emitted, and in both cases the
connected flag is unchanged. -/
theorem C6_publish_roundtrip (connected : Bool) (r : Int) (id : Nat)
    (topic payload : List Nat) (orc : DispatchOracle) :
    (payload.length ≤ MQTT_MESSAGE_BUFFER_LEN → orc.readallRes = 0 →
      mqtt_evt_handler connected ⟨EvtType.publish, r, id, topic, payload⟩ orc
        = (connected, [],
           [Rsp.xmqttmsg topic.length payload.length,
            Rsp.raw topic, Rsp.raw crlf, Rsp.raw payload, Rsp.raw crlf,
            Rsp.xmqttevt 2 0])) ∧
    (payload.length > MQTT_MESSAGE_BUFFER_LEN →
      mqtt_evt_handler connected ⟨EvtType.publish, r, id, topic, payload⟩ orc
        = (connected, [], [Rsp.xmqttevt 2 (-EMSGSIZE)])) := by
  constructor
  · intro hlen hread
    simp [mqtt_evt_handler, handle_mqtt_publish_evt, publish_get_payload,
          typeCode, Nat.not_lt.mpr hlen, hread]
  · intro hlen
    simp [mqtt_evt_handler, handle_mqtt_publish_evt, publish_get_payload,
          typeCode, hlen, EMSGSIZE]

/-- Witness for C6 at concrete inputs: topic "t/1", payload "hello"
(length 5) round-trips; a 577-byte payload is rejected with
`-EMSGSIZE`. -/
theorem C6_publish_roundtrip_witness :
    mqtt_evt_handler true
        ⟨EvtType.publish, 0, 1, [116, 47, 49], [104, 101, 108, 108, 111]⟩
        ⟨0, 0, 0⟩
      = (true, [],
         [Rsp.xmqttmsg 3 5,
          Rsp.raw [116, 47, 49], Rsp.raw crlf,
          Rsp.raw [104, 101, 108, 108, 111], Rsp.raw crlf,
          Rsp.xmqttevt 2 0]) ∧
    mqtt_evt_handler true
        ⟨EvtType.publish, 0, 1, [116, 47, 49], List.replicate 577 0⟩
        ⟨0, 0, 0⟩
      = (true, [], [Rsp.xmqttevt 2 (-EMSGSIZE)]) :=
  ⟨(C6_publish_roundtrip true 0 1 [116, 47, 49] [104, 101, 108, 108, 111]
      ⟨0, 0, 0⟩).1 (by decide) rfl,
   (C6_publish_roundtrip true 0 1 [116, 47, 49] (List.replicate 577 0)
      ⟨0, 0, 0⟩).2 (by simp only [List.length_replicate]; decide)⟩

/-- C9: `do_mqtt_publish` and `do_mqtt_subscribe` perform no
connected-state check: for every state (in particular with the connected
flag false) the engine call is issued and its result is returned
verbatim, so these operations never originate a NotConnected error
themselves. -/
theorem C9_no_connected_precondition (st : St) (orc : EngOracle)
    (msg topic : List Nat) (qos : Nat) (hq : qos ≤ 2) :
    ((do_mqtt_publish st orc msg).1 = orc.mqttPublishRes ∧
     (do_mqtt_publish st orc msg).2.2 = [Act.publishCall msg]) ∧
    ((do_mqtt_subscribe st orc 1 topic qos).1 = orc.mqttSubscribeRes ∧
     (do_mqtt_subscribe st orc 1 topic qos).2.2
       = [Act.subscribeCall topic qos (nextMsgId st.subMessageId)]) ∧
    ((do_mqtt_subscribe st orc 0 topic 0).1 = orc.mqttUnsubscribeRes ∧
     (do_mqtt_subscribe st orc 0 topic 0).2.2
       = [Act.unsubscribeCall topic (nextMsgId st.subMessageId)]) := by
  refine ⟨⟨rfl, rfl⟩, ⟨?_, ?_⟩, ⟨?_, ?_⟩⟩ <;>
    simp [do_mqtt_subscribe, hq]

/-- Witness for C9 at a disconnected state: both operations still reach
the engine and hand back its results. -/
theorem C9_no_connected_precondition_witness :
    (do_mqtt_publish stDisc orcOk [104]).2.2 = [Act.publishCall [104]] ∧
    (do_mqtt_subscribe stDisc orcOk 1 [116] 1).1 = orcOk.mqttSubscribeRes :=
  ⟨((C9_no_connected_precondition stDisc orcOk [104] [116] 1 (by decide)).1).2,
   ((C9_no_connected_precondition stDisc orcOk [104] [116] 1 (by decide)).2).1.1⟩

/-- C7: starting from a disconnected state, a connect attempt in which
resolution and handshake both succeed returns 0, sets the connected flag
to true, marks the driver thread running and spawns the thread exactly
once; a resolution failure (nonzero resolver error) or a handshake
failure leaves the connected flag false and spawns no thread. -/
theorem C7_connect_flag_and_thread (st : St) (orc : EngOracle)
    (h : st.ctx.connected = false) :
    ((∃ a, orc.resolveRes = Except.ok a) → orc.mqttConnectRes = 0 →
       (do_mqtt_connect st orc).1 = 0 ∧
       ((do_mqtt_connect st orc).2.1).ctx.connected = true ∧
       ((do_mqtt_connect st orc).2.1).threadRunning = true ∧
       (do_mqtt_connect st orc).2.2
         = [Act.getaddrinfoCall, Act.mqttConnectCall, Act.spawnThread]) ∧
    (∀ e, orc.resolveRes = Except.error e → e ≠ 0 →
       (do_mqtt_connect st orc).1 = e ∧
       ((do_mqtt_connect st orc).2.1).ctx.connected = false ∧
       (do_mqtt_connect st orc).2.2 = [Act.getaddrinfoCall]) ∧
    ((∃ a, orc.resolveRes = Except.ok a) → orc.mqttConnectRes ≠ 0 →
       (do_mqtt_connect st orc).1 = orc.mqttConnectRes ∧
       ((do_mqtt_connect st orc).2.1).ctx.connected = false ∧
       (do_mqtt_connect st orc).2.2
         = [Act.getaddrinfoCall, Act.mqttConnectCall]) := by
  refine ⟨?_, ?_, ?_⟩
  · rintro ⟨a, hres⟩ hconn
    simp [do_mqtt_connect, broker_init, client_init, h, hres, hconn]
  · intro e hres he
    simp [do_mqtt_connect, broker_init, h, hres, he]
  · rintro ⟨a, hres⟩ hconn
    simp [do_mqtt_connect, broker_init, client_init, h, hres, hconn]

/-- Witness for C7: from the sample disconnected state, the all-success
oracle connects (flag true, thread spawned); the failing-resolver and
failing-handshake oracles leave the flag false with no spawn. -/
theorem C7_connect_flag_and_thread_witness :
    ((do_mqtt_connect stDisc orcOk).2.1).ctx.connected = true ∧
    ((do_mqtt_connect stDisc orcResolveFail).2.1).ctx.connected = false ∧
    ((do_mqtt_connect stDisc orcConnFail).2.1).ctx.connected = false :=
  ⟨((C7_connect_flag_and_thread stDisc orcOk rfl).1 ⟨7, rfl⟩ rfl).2.1,
   (((C7_connect_flag_and_thread stDisc orcResolveFail rfl).2.1) 5 rfl
      (by decide)).2.1,
   ((C7_connect_flag_and_thread stDisc orcConnFail rfl).2.2 ⟨7, rfl⟩
      (by decide)).2.1⟩

/-- Helper: `do_mqtt_connect` either raises the connected flag (the
success path) or leaves it unchanged; it never lowers it. -/
theorem do_mqtt_connect_connected (st : St) (orc : EngOracle) :
    ((do_mqtt_connect st orc).2.1).ctx.connected = true ∨
    ((do_mqtt_connect st orc).2.1).ctx.connected = st.ctx.connected := by
  simp only [do_mqtt_connect, broker_init, client_init]
  split
  · right; rfl
  · rcases hres : orc.resolveRes with e | a <;> simp only [hres] <;>
      · split
        · right; rfl
        · split
          · right; rfl
          · left; rfl

/-- Helper: `do_mqtt_disconnect` never writes the connected flag. -/
theorem do_mqtt_disconnect_connected (st : St) (orc : EngOracle) :
    ((do_mqtt_disconnect st orc).2.1).ctx.connected = st.ctx.connected := by
  simp only [do_mqtt_disconnect, slm_at_mqtt_uninit]
  split
  · rfl
  · split
    · rfl
    · split <;> rfl

/-- C10: the disconnect operation never writes the connected flag (its
cleanup, `slm_at_mqtt_uninit`, clears only the broker reference); the
tracker operations and the publish handler leave the flag alone; the
connect handler can only raise it; and the Event Dispatcher is the sole
place it is set to false, exactly on a failed CONNACK or a DISCONNECT
event. -/
theorem C10_connected_flag_ownership :
    (∀ st orc, ((do_mqtt_disconnect st orc).2.1).ctx.connected
        = st.ctx.connected) ∧
    (∀ st, slm_at_mqtt_uninit st = { st with clientBroker := none }) ∧
    (∀ st orc msg, ((do_mqtt_publish st orc msg).2.1).ctx.connected
        = st.ctx.connected) ∧
    (∀ st orc op topic qos,
       ((do_mqtt_subscribe st orc op topic qos).2.1).ctx.connected
        = st.ctx.connected) ∧
    (∀ st orc topic msg qos retain,
       ((handle_at_mqtt_publish st orc topic msg qos retain).2.1).ctx.connected
        = st.ctx.connected) ∧
    (∀ st orc cmd,
       ((handle_at_mqtt_connect st orc cmd).2.1).ctx.connected = true ∨
       ((handle_at_mqtt_connect st orc cmd).2.1).ctx.connected
        = st.ctx.connected) ∧
    (∀ connected evt orc,
       (mqtt_evt_handler connected evt orc).1
        = if (evt.type = EvtType.connack ∧ evt.result ≠ 0)
             ∨ evt.type = EvtType.disconnectEvt
          then false else connected) := by
  refine ⟨fun st orc => do_mqtt_disconnect_connected st orc,
          fun _ => rfl, fun _ _ _ => rfl, ?_, ?_, ?_, ?_⟩
  · intro st orc op topic qos
    simp only [do_mqtt_subscribe]
    split <;> [skip; rfl]
    split <;> [rfl; skip]
    split <;> rfl
  · intro st orc topic msg qos retain
    simp only [handle_at_mqtt_publish, do_mqtt_publish]
    split <;> [skip; rfl]
    split <;> [skip; rfl]
    split <;> rfl
  · intro st orc cmd
    simp only [handle_at_mqtt_connect]
    split
    · exact do_mqtt_connect_connected _ orc
    · split
      · right; exact do_mqtt_disconnect_connected st orc
      · right; rfl
  · intro connected evt orc
    rcases evt with ⟨t, res, id, topic, payload⟩
    cases t <;>
      simp [mqtt_evt_handler] <;>
      rcases eq_or_ne res 0 with h | h <;> simp [h]

/-- C1 counterexample: in a connected state with a failing
`mqtt_disconnect` (error -1), `do_mqtt_disconnect` returns the error but
the teardown does NOT continue: the driver thread is not joined and the
broker reference is left in place — refuting the claim that the join and
the resource release still happen. -/
theorem C1_counterexample :
    (do_mqtt_disconnect stConn orcDiscFail).1 = -1 ∧
    Act.joinThread ∉ (do_mqtt_disconnect stConn orcDiscFail).2.2 ∧
    ((do_mqtt_disconnect stConn orcDiscFail).2.1).clientBroker
      = some (7, 1883) := by
  decide

/-- C1 (amended): if the protocol-level disconnect send fails, the
teardown is aborted, not continued — the send error is returned
immediately, the driver thread is not joined and the broker reference is
not released; only when the send succeeds does the teardown join the
thread (bounded by the keepalive interval) and clear the broker
reference, returning 0. -/
theorem C1_disconnect_teardown (st : St) (orc : EngOracle)
    (h : st.ctx.connected = true) :
    (orc.mqttDisconnectRes ≠ 0 →
       do_mqtt_disconnect st orc
         = (orc.mqttDisconnectRes, st, [Act.sendDisconnect])) ∧
    (orc.mqttDisconnectRes = 0 →
       (do_mqtt_disconnect st orc).1 = 0 ∧
       (do_mqtt_disconnect st orc).2.2
         = [Act.sendDisconnect, Act.joinThread] ∧
       ((do_mqtt_disconnect st orc).2.1).clientBroker = none) := by
  constructor
  · intro hd
    simp [do_mqtt_disconnect, h, hd]
  · intro hd
    simp [do_mqtt_disconnect, slm_at_mqtt_uninit, h, hd]

/-- Witness for C1 (amended) at concrete inputs: failing send returns -1
with only the send in the trace; successful send joins and clears the
broker reference. -/
theorem C1_disconnect_teardown_witness :
    do_mqtt_disconnect stConn orcDiscFail
      = (-1, stConn, [Act.sendDisconnect]) ∧
    ((do_mqtt_disconnect stConn orcOk).2.1).clientBroker = none :=
  ⟨(C1_disconnect_teardown stConn orcDiscFail rfl).1 (by decide),
   ((C1_disconnect_teardown stConn orcOk rfl).2 rfl).2.2⟩

/-- The connect command used by the C2 counterexample: a second connect
attempt with different identity parameters. -/
def cmdB : ConnectCmd :=
  { op := 1, clientId := [98], username := [118], password := [113],
    url := [105], port := 1884, secTag := none }

/-- C2 counterexample: issuing a connect command while connected does
fail with `-EISCONN`, but the handler has already overwritten the stored
client id with the new command's value — refuting "client id ...
unchanged". -/
theorem C2_counterexample :
    (handle_at_mqtt_connect stConn orcOk cmdB).1 = -EISCONN ∧
    stConn.clientId = [97] ∧
    ((handle_at_mqtt_connect stConn orcOk cmdB).2.1).clientId = [98] := by
  decide

/-- C2 (amended): disconnect with no active session fails with
`-ENOTCONN` and changes nothing; a connect command while a session is
active fails with `-EISCONN` with no engine call, leaving the connected
flag, broker address, client-broker reference, pending publish and
message-id counters untouched — but the handler has already overwritten
client id, username, password, broker URL, port, security tag and
address family with the new command parameters before the check. -/
theorem C2_state_errors (st : St) (orc : EngOracle) (cmd : ConnectCmd)
    (hop : cmd.op = 1 ∨ cmd.op = 2) :
    (st.ctx.connected = false →
       do_mqtt_disconnect st orc = (-ENOTCONN, st, [])) ∧
    (st.ctx.connected = true →
       (handle_at_mqtt_connect st orc cmd).1 = -EISCONN ∧
       (handle_at_mqtt_connect st orc cmd).2.2 = [] ∧
       ((handle_at_mqtt_connect st orc cmd).2.1).ctx.connected = true ∧
       ((handle_at_mqtt_connect st orc cmd).2.1).ctx.broker
         = st.ctx.broker ∧
       ((handle_at_mqtt_connect st orc cmd).2.1).clientBroker
         = st.clientBroker ∧
       ((handle_at_mqtt_connect st orc cmd).2.1).pubParam = st.pubParam ∧
       ((handle_at_mqtt_connect st orc cmd).2.1).subMessageId
         = st.subMessageId ∧
       ((handle_at_mqtt_connect st orc cmd).2.1).clientId = cmd.clientId ∧
       ((handle_at_mqtt_connect st orc cmd).2.1).brokerUrl = cmd.url ∧
       ((handle_at_mqtt_connect st orc cmd).2.1).brokerPort = cmd.port ∧
       ((handle_at_mqtt_connect st orc cmd).2.1).ctx.username
         = cmd.username ∧
       ((handle_at_mqtt_connect st orc cmd).2.1).ctx.password
         = cmd.password ∧
       ((handle_at_mqtt_connect st orc cmd).2.1).ctx.secTag
         = cmd.secTag.getD INVALID_SEC_TAG ∧
       ((handle_at_mqtt_connect st orc cmd).2.1).ctx.family
         = (if cmd.op = 1 then AF_INET else AF_INET6)) := by
  constructor
  · intro h
    simp [do_mqtt_disconnect, h]
  · intro h
    simp only [handle_at_mqtt_connect, do_mqtt_connect, hop, if_true]
    simp [h]

/-- Witness for C2 (amended): disconnect from the sample disconnected
state is a no-op error; the connect command on the connected state
reports `-EISCONN` yet carries the new client id. -/
theorem C2_state_errors_witness :
    do_mqtt_disconnect stDisc orcOk = (-ENOTCONN, stDisc, []) ∧
    ((handle_at_mqtt_connect stConn orcOk cmdB).2.1).clientId
      = cmdB.clientId :=
  ⟨(C2_state_errors stDisc orcOk cmdB (Or.inl rfl)).1 rfl,
   (((C2_state_errors stConn orcOk cmdB (Or.inl rfl)).2 rfl).2.2.2.2.2.2).2.1⟩

/-- C4 counterexample: with the publish counter at 65534, the next
allocation yields id 1 — the source resets the counter to 1 when the
incremented value equals `UINT16_MAX` — whereas the claimed rule
("wrapping from 0 back to 1") would allocate 65535. -/
theorem C4_counterexample :
    ((handle_at_mqtt_publish
        { stConn with pubParam := { pubParam0 with messageId := 65534 } }
        orcOk [116] [104] 0 0).2.1).pubParam.messageId = 1 ∧
    claimedNextMsgId 65534 = 65535 ∧ (1 : Nat) ≠ 65535 := by
  decide

/-- C4 (amended): each 16-bit counter advances by exactly one per
allocation up to 65534 and then wraps from 65534 back to 1 (the counter
is reset to 1 when the incremented value equals `UINT16_MAX`), so from
any reachable value neither 0 nor 65535 is ever allocated; the publish
counter and the subscribe counter advance independently of each
other. -/
theorem C4_message_id_counters (st : St) (orc : EngOracle)
    (topic msg : List Nat) (qos retain op id : Nat)
    (hq : qos ≤ 2) (hr : retain ≤ 1) :
    (((handle_at_mqtt_publish st orc topic msg qos
         retain).2.1).pubParam.messageId
        = nextMsgId st.pubParam.messageId) ∧
    (((handle_at_mqtt_publish st orc topic msg qos retain).2.1).subMessageId
        = st.subMessageId) ∧
    (((do_mqtt_subscribe st orc op topic qos).2.1).subMessageId
        = nextMsgId st.subMessageId) ∧
    (((do_mqtt_subscribe st orc op topic qos).2.1).pubParam.messageId
        = st.pubParam.messageId) ∧
    (id ≤ 65533 → nextMsgId id = id + 1) ∧
    nextMsgId 65534 = 1 ∧
    (id ≤ 65534 → 1 ≤ nextMsgId id ∧ nextMsgId id ≤ 65534) := by
  refine ⟨?_, ?_, ?_, ?_, ?_, by decide, ?_⟩
  · simp only [handle_at_mqtt_publish, do_mqtt_publish, hq, if_true, hr]
    split <;> rfl
  · simp only [handle_at_mqtt_publish, do_mqtt_publish, hq, if_true, hr]
    split <;> rfl
  · simp only [do_mqtt_subscribe, hq, if_true]
    split <;> [rfl; skip]
    split <;> rfl
  · simp only [do_mqtt_subscribe, hq, if_true]
    split <;> [rfl; skip]
    split <;> rfl
  · intro hle
    simp only [nextMsgId, UINT16_MAX]
    split <;> omega
  · intro hle
    simp only [nextMsgId, UINT16_MAX]
    split <;> omega

/-- Witness for C4 (amended) at concrete inputs: a publish allocation
from counter 0 yields id 1, a subscribe allocation from counter 0 yields
id 1, and 5 allocates to 6. -/
theorem C4_message_id_counters_witness :
    ((handle_at_mqtt_publish stConn orcOk [116] [104] 0
        0).2.1).pubParam.messageId = 1 ∧
    ((do_mqtt_subscribe stConn orcOk 1 [116] 0).2.1).subMessageId = 1 ∧
    nextMsgId 5 = 6 :=
  ⟨(C4_message_id_counters stConn orcOk [116] [104] 0 0 1 5 (by decide)
      (by decide)).1,
   (C4_message_id_counters stConn orcOk [116] [104] 0 0 1 5 (by decide)
      (by decide)).2.2.1,
   (C4_message_id_counters stConn orcOk [116] [104] 0 0 1 5 (by decide)
      (by decide)).2.2.2.2.1 (by decide)⟩

/-- C5 counterexample: `do_mqtt_subscribe` with the out-of-range qos 3
does fail with `-EINVAL` and issues no engine call, but it is not free of
state change: the subscribe message-id counter has advanced from 0 to 1
(the increment precedes the validation). -/
theorem C5_counterexample :
    (do_mqtt_subscribe stConn orcOk 1 [116] 3).1 = -EINVAL ∧
    (do_mqtt_subscribe stConn orcOk 1 [116] 3).2.2 = [] ∧
    stConn.subMessageId = 0 ∧
    ((do_mqtt_subscribe stConn orcOk 1 [116] 3).2.1).subMessageId = 1 := by
  decide

/-- C5 (amended): qos outside {0,1,2} (and, for publish, retain outside
{0,1}) is rejected with `-EINVAL` and no engine call occurs; on the
publish path the message-id counter is not advanced and the pending
publish parameters are untouched apart from a valid qos staged before
retain validation (the staging topic/message buffers are overwritten
during parameter extraction); the subscribe path, however, advances its
message-id counter before validating qos. -/
theorem C5_invalid_argument (st : St) (orc : EngOracle)
    (topic msg : List Nat) (qos retain op : Nat) :
    (qos > 2 →
       handle_at_mqtt_publish st orc topic msg qos retain
         = (-EINVAL, { st with pubTopic := topic, pubMsg := msg }, [])) ∧
    (qos ≤ 2 → retain > 1 →
       handle_at_mqtt_publish st orc topic msg qos retain
         = (-EINVAL,
            { st with pubTopic := topic, pubMsg := msg,
                      pubParam := { st.pubParam with qos := qos } }, [])) ∧
    (qos > 2 →
       do_mqtt_subscribe st orc op topic qos
         = (-EINVAL, { st with subMessageId := nextMsgId st.subMessageId },
            [])) := by
  refine ⟨?_, ?_, ?_⟩
  · intro h
    simp only [handle_at_mqtt_publish]
    rw [if_neg (by omega)]
  · intro hq h
    simp only [handle_at_mqtt_publish]
    rw [if_pos hq, if_neg (by omega)]
  · intro h
    simp only [do_mqtt_subscribe]
    rw [if_neg (by omega)]

/-- Witness for C5 (amended) at concrete inputs: qos 3 and retain 2 are
rejected on the publish path; qos 7 is rejected on the subscribe path
with the counter advanced. -/
theorem C5_invalid_argument_witness :
    (handle_at_mqtt_publish stConn orcOk [116] [104] 3 0).1 = -EINVAL ∧
    (handle_at_mqtt_publish stConn orcOk [116] [104] 0 2).1 = -EINVAL ∧
    ((do_mqtt_subscribe stConn orcOk 1 [116] 7).2.1).subMessageId
      = nextMsgId stConn.subMessageId :=
  ⟨congrArg Prod.fst
     ((C5_invalid_argument stConn orcOk [116] [104] 3 0 1).1 (by decide)),
   congrArg Prod.fst
     ((C5_invalid_argument stConn orcOk [116] [104] 0 2 1).2.1 (by decide)
        (by decide)),
   congrArg (fun x => x.2.1.subMessageId)
     ((C5_invalid_argument stConn orcOk [116] [104] 7 0 1).2.2 (by decide))⟩
